import Mathlib

/-!
Shallow embedding of the marketing-campaign-processor repository.

The Python sources are modelled as follows.

* A pandas `DataFrame` becomes `DF`: a list of column names plus a list of
  typed rows (`Record`, the CSV schema used throughout the repository).
* Integer columns are `Int`, real-valued columns are `Rat`.  Float division,
  which numpy/pandas performs without raising even on a zero denominator, is
  `pdDiv`; its result type `PdVal` carries the explicit non-finite markers
  (`nan`, `inf`, `negInf`) that numpy produces there.
* `df.groupby(k)[c].sum()` becomes a `dedup` of the key column followed by a
  filtered sum, and `sort_values(ascending=False)` becomes
  `List.insertionSort` with a descending relation that orders `nan` last,
  as pandas does.
* Python exceptions become an `Except PyErr` result; `PyErr` records the
  exception class and its message.
* `random.choice` / `random.uniform` / `random.randint` draws are supplied by
  explicit oracle functions, so the data generators are deterministic
  functions of those oracles.
-/

/-- One row of the campaign CSV schema (`Date, Campaign, Platform, Impressions,
Clicks, Conversions, Revenue, Engagement_Rate`), as written by
`DataSimulator.generate_simulated_data` and consumed by `DataAnalyzer`. -/
structure Record where
  date : String
  campaign : String
  platform : String
  impressions : Int
  clicks : Int
  conversions : Int
  revenue : Rat
  engagement_rate : Rat
deriving DecidableEq

/-- A pandas `DataFrame`: the column names it carries plus its rows.  A row
always carries all eight record fields; a column of `cols` is what the
`DataFrame` knows it has, which is all the validation in `analysis.py`
looks at. -/
structure DF where
  cols : List String
  rows : List Record
deriving DecidableEq

/-- The `pd.DataFrame()` produced by `CSVDataLoader.load_data` on a read
failure: no columns, no rows. -/
def DF.emptyFrame : DF := { cols := [], rows := [] }

/-- `DataFrame.empty`: true when either axis has length zero. -/
def DF.isEmptyDF (df : DF) : Bool := df.rows.isEmpty || df.cols.isEmpty

/-- The value of one cell of a float Series, as produced by numpy division:
either a finite value or one of the non-finite markers. -/
inductive PdVal where
  | num (q : Rat)
  | nan
  | inf
  | negInf
deriving DecidableEq

/-- numpy float division: a zero denominator does not raise; `0/0` is `nan`
and `x/0` is a signed infinity. -/
def pdDiv (a b : Rat) : PdVal :=
  if b = 0 then
    if a = 0 then .nan else if 0 < a then .inf else .negInf
  else .num (a / b)

/-- True exactly on the non-finite markers `nan`, `inf`, `negInf`. -/
def PdVal.isUndefinedMarker : PdVal → Bool
  | .num _ => false
  | _ => true

/-- A raised Python exception, by class and message. -/
inductive PyErr where
  | valueError (msg : String)
  | fileNotFoundError (msg : String)
  | keyError (msg : String)
deriving DecidableEq

/-- The distinct campaign names of a frame, in first-seen order
(`df.groupby('Campaign')` group keys; pandas sorts them, but no claim
depends on key order). -/
def campaignKeys (rows : List Record) : List String :=
  (rows.map fun r => r.campaign).dedup

/-- The rows of one campaign's group. -/
def campaignGroup (rows : List Record) (c : String) : List Record :=
  rows.filter fun r => decide (r.campaign = c)

/-- The distinct platform names of a frame. -/
def platformKeys (rows : List Record) : List String :=
  (rows.map fun r => r.platform).dedup

/-- The rows of one platform's group. -/
def platformGroup (rows : List Record) (p : String) : List Record :=
  rows.filter fun r => decide (r.platform = p)

/-- The distinct `(Date, Platform)` pairs of a frame
(`df.groupby(['Date', 'Platform'])` group keys). -/
def dailyKeys (rows : List Record) : List (String × String) :=
  (rows.map fun r => (r.date, r.platform)).dedup

/-- The rows of one `(Date, Platform)` group. -/
def dailyGroup (rows : List Record) (k : String × String) : List Record :=
  rows.filter fun r => decide ((r.date, r.platform) = k)

/-- `Series.sum()` of an integer column over a group. -/
def sumInt (l : List Record) (f : Record → Int) : Int :=
  (l.map f).sum

/-- `Series.sum()` of a float column over a group. -/
def sumRat (l : List Record) (f : Record → Rat) : Rat :=
  (l.map f).sum

/-- `Series.mean()` of a float column over a group. -/
def meanRat (l : List Record) (f : Record → Rat) : Rat :=
  (l.map f).sum / (l.length : Rat)

/-- Descending order on keyed finite values, for
`sort_values(ascending=False)` on a numeric Series. -/
def descRat (a b : String × Rat) : Prop := b.2 ≤ a.2

instance : DecidableRel descRat := fun a b => inferInstanceAs (Decidable (b.2 ≤ a.2))

instance : IsTotal (String × Rat) descRat := ⟨fun a b => le_total b.2 a.2⟩

instance : IsTrans (String × Rat) descRat := ⟨fun _ _ _ h1 h2 => le_trans h2 h1⟩

/-- Descending order on float-Series cells: `inf` first, then finite values
descending, then `-inf`; `nan` sorts last, as `sort_values` places it. -/
def pdLeDesc : PdVal → PdVal → Bool
  | .nan, .nan => true
  | .nan, _ => false
  | _, .nan => true
  | .inf, _ => true
  | _, .inf => false
  | .num a, .num b => decide (b ≤ a)
  | .num _, .negInf => true
  | .negInf, .num _ => false
  | .negInf, .negInf => true

/-- Keyed version of `pdLeDesc`, for sorting the CTR and conversion-rate
Series. -/
def descPd (a b : String × PdVal) : Prop := pdLeDesc a.2 b.2 = true

instance : DecidableRel descPd := fun a b => inferInstanceAs (Decidable (pdLeDesc a.2 b.2 = true))

/-- The column set checked by `DataAnalyzer.analyze_campaign_performance`
(analysis.py line 38).  `Date` is not among them. -/
def required_columns : List String :=
  ["Campaign", "Revenue", "Platform", "Impressions", "Clicks", "Conversions", "Engagement_Rate"]

/-- `required_columns - set(dataframe.columns)` (analysis.py line 40).  The
Python value is a set; this model lists its elements in `required_columns`
order. -/
def missingColumns (df : DF) : List String :=
  required_columns.filter fun c => decide (c ∉ df.cols)

/-- The `ValueError` message of analysis.py line 41. -/
def schemaErrMsg (missing : List String) : String :=
  "🚫 Missing required columns: " ++ String.intercalate ", " missing

/-- The dictionary returned by `analyze_campaign_performance`: five pandas
Series, each keyed by campaign or platform. -/
structure CampaignPerf where
  revenue : List (String × Rat)
  ctr : List (String × PdVal)
  conversion_rate : List (String × PdVal)
  engagement_by_platform : List (String × Rat)
  impressions_by_platform : List (String × Int)
deriving DecidableEq

/-- `DataAnalyzer.analyze_campaign_performance` (analysis.py lines 24-49):
validate the column set, then group by campaign or platform and compute the
five Series; CTR and conversion rate divide grouped sums. -/
def analyze_campaign_performance (df : DF) : Except PyErr CampaignPerf :=
  if required_columns.all (fun c => decide (c ∈ df.cols)) then
    .ok
      { revenue := List.insertionSort descRat
          ((campaignKeys df.rows).map fun c =>
            (c, sumRat (campaignGroup df.rows c) fun r => r.revenue)),
        ctr := List.insertionSort descPd
          ((campaignKeys df.rows).map fun c =>
            (c, pdDiv ((sumInt (campaignGroup df.rows c) fun r => r.clicks : Int) : Rat)
                ((sumInt (campaignGroup df.rows c) fun r => r.impressions : Int) : Rat))),
        conversion_rate := List.insertionSort descPd
          ((campaignKeys df.rows).map fun c =>
            (c, pdDiv ((sumInt (campaignGroup df.rows c) fun r => r.conversions : Int) : Rat)
                ((sumInt (campaignGroup df.rows c) fun r => r.clicks : Int) : Rat))),
        engagement_by_platform := (platformKeys df.rows).map fun p =>
          (p, meanRat (platformGroup df.rows p) fun r => r.engagement_rate),
        impressions_by_platform := (platformKeys df.rows).map fun p =>
          (p, sumInt (platformGroup df.rows p) fun r => r.impressions) }
  else
    .error (.valueError (schemaErrMsg (missingColumns df)))

/-- The `Date` cell of the daily-metrics frame: a raw string as loaded from
CSV, or the timestamp `pd.to_datetime` converts it to. -/
inductive DateCell where
  | str (s : String)
  | ts (n : Nat)
deriving DecidableEq

/-- The underlying string of a still-raw `Date` cell. -/
def DateCell.asStr : DateCell → String
  | .str s => s
  | .ts _ => ""

/-- One row of the frame returned by `analyze_platform_performance`: the
`(Date, Platform)` key, the aggregated columns, and the two derived ratios. -/
structure DailyRow where
  date : DateCell
  platform : String
  engagement_rate : Rat
  impressions : Int
  clicks : Int
  conversions : Int
  ctr : PdVal
  conversion_rate : PdVal
deriving DecidableEq

/-- The columns `analyze_platform_performance` touches; pandas raises a
`KeyError` when grouping or aggregating on an absent column (the source has
no explicit check of its own). -/
def platformColumns : List String :=
  ["Date", "Platform", "Engagement_Rate", "Impressions", "Clicks", "Conversions"]

/-- `DataAnalyzer.analyze_platform_performance` (analysis.py lines 51-72):
group by `(Date, Platform)`, aggregate mean engagement and summed
impressions/clicks/conversions, then derive CTR and conversion rate by
dividing the aggregated columns. -/
def analyze_platform_performance (df : DF) : Except PyErr (List DailyRow) :=
  if platformColumns.all (fun c => decide (c ∈ df.cols)) then
    .ok ((dailyKeys df.rows).map fun k =>
      { date := .str k.1,
        platform := k.2,
        engagement_rate := meanRat (dailyGroup df.rows k) fun r => r.engagement_rate,
        impressions := sumInt (dailyGroup df.rows k) fun r => r.impressions,
        clicks := sumInt (dailyGroup df.rows k) fun r => r.clicks,
        conversions := sumInt (dailyGroup df.rows k) fun r => r.conversions,
        ctr := pdDiv ((sumInt (dailyGroup df.rows k) fun r => r.clicks : Int) : Rat)
          ((sumInt (dailyGroup df.rows k) fun r => r.impressions : Int) : Rat),
        conversion_rate := pdDiv ((sumInt (dailyGroup df.rows k) fun r => r.conversions : Int) : Rat)
          ((sumInt (dailyGroup df.rows k) fun r => r.clicks : Int) : Rat) })
  else
    .error (.keyError "Date")

/-- `pd.to_datetime` on one `Date` cell, parameterised by the library's
string-to-timestamp parser: strings are parsed, timestamps pass through. -/
def to_datetime (parse : String → Nat) : DateCell → DateCell
  | .str s => .ts (parse s)
  | .ts n => .ts n

/-- `ChartCreator.create_platform_comparison` (visualization.py lines
117-151).  Line 129 assigns `performance_data['Date'] =
pd.to_datetime(performance_data['Date'])`, writing the converted column back
into the caller's frame; the rest of the function only reads the frame while
plotting.  The result is the post-call state of the argument frame together
with the list of metrics plotted. -/
def create_platform_comparison (parse : String → Nat) (df : List DailyRow) :
    List DailyRow × List String :=
  (df.map fun r => { r with date := to_datetime parse r.date },
    ["Engagement_Rate", "CTR", "Conversion_Rate"])

/-- `ChartCreator.create_performance_charts` (visualization.py lines 40-54):
renders the revenue bar chart and the CTR/conversion scatter, reading the
Series only.  The result is the post-call state of the argument together
with the chart files written. -/
def create_performance_charts (perf : CampaignPerf) : CampaignPerf × List String :=
  (perf, ["revenue_performance.png", "ctr_vs_conversion.png"])

/-- `CSVDataLoader.load_data` (data_handling.py lines 44-61): the `pd.read_csv`
outcome is passed in as an `Except`; any raised exception is caught and an
empty frame returned in its place. -/
def load_data (result : Except String DF) : DF :=
  match result with
  | .ok df => df
  | .error _ => DF.emptyFrame

/-- `pd.concat(dataframes, ignore_index=True)`: columns are unioned, rows are
stacked. -/
def concatDF (dfs : List DF) : DF :=
  { cols := (dfs.flatMap fun df => df.cols).dedup,
    rows := dfs.flatMap fun df => df.rows }

/-- Message of the `ValueError` raised by `MarketingAnalyzer.run_analysis`
when the concatenated data is empty (analysis.py line 101). -/
def noDataMsg : String := "🕳️ Our intelligence network came up empty. Abort mission."

/-- Message of the `FileNotFoundError` raised by
`MarketingAnalyzer._load_all_data` when the glob finds no CSV files
(analysis.py line 127); the Python message interpolates the folder path. -/
def noFilesMsg : String := "🚫 No CSV files found in the data folder"

/-- `MarketingAnalyzer._load_all_data` (analysis.py lines 115-130): the glob
result is passed in as the list of per-file `pd.read_csv` outcomes; no files
at all raises `FileNotFoundError`, otherwise every file is loaded and the
frames concatenated. -/
def load_all_data (files : List (Except String DF)) : Except PyErr DF :=
  if files.isEmpty then .error (.fileNotFoundError noFilesMsg)
  else .ok (concatDF (files.map load_data))

/-- The analysis artefacts held at the end of a successful
`run_analysis`: the campaign-performance dictionary and the daily
platform-metrics frame, both in their state after chart rendering. -/
structure AnalysisOut where
  performance : CampaignPerf
  platform_perf : List DailyRow
deriving DecidableEq

/-- `MarketingAnalyzer.run_analysis` (analysis.py lines 90-113), with the two
aggregation operations abstracted as parameters so that the control flow
before they are invoked is explicit: load, abort on empty data, aggregate,
render. -/
def run_analysis_with (campaignFn : DF → Except PyErr CampaignPerf)
    (platformFn : DF → Except PyErr (List DailyRow)) (parse : String → Nat)
    (files : List (Except String DF)) : Except PyErr AnalysisOut :=
  match load_all_data files with
  | .error e => .error e
  | .ok all =>
    if all.isEmptyDF then .error (.valueError noDataMsg)
    else
      match campaignFn all with
      | .error e => .error e
      | .ok perf =>
        match platformFn all with
        | .error e => .error e
        | .ok daily =>
          .ok { performance := (create_performance_charts perf).1,
                platform_perf := (create_platform_comparison parse daily).1 }

/-- `MarketingAnalyzer.run_analysis` with the repository's actual aggregation
functions plugged in. -/
def run_analysis (parse : String → Nat) (files : List (Except String DF)) :
    Except PyErr AnalysisOut :=
  run_analysis_with analyze_campaign_performance analyze_platform_performance parse files

/-- The adjective pool of `DataSimulator.generate_campaign_names`. -/
def adjectives : List String :=
  ["Bold", "Smart", "Vibrant", "Sleek", "Dynamic", "Innovative", "Stellar", "Radiant", "Agile", "Zen"]

/-- The noun pool of `DataSimulator.generate_campaign_names`. -/
def nouns : List String :=
  ["Vision", "Quest", "Journey", "Horizon", "Leap", "Spark", "Wave", "Pulse", "Orbit", "Nexus"]

/-- `random.choice(l)`, with the random draw supplied as an oracle index. -/
def choiceFrom (l : List String) (k : Nat) : String :=
  l.getD (k % l.length) ""

/-- The decimal digit characters of `i`, most significant first
(Python `str(i)` for the relevant inputs). -/
def decimalChars (i : Nat) : List Char :=
  ((Nat.digits 10 i).map fun d => Char.ofNat (48 + d)).reverse

/-- Python `f"{i:03d}"`: the decimal digits of `i`, left-padded with zeros to
a minimum width of three. -/
def pad3 (i : Nat) : List Char :=
  List.replicate (3 - (decimalChars i).length) '0' ++ decimalChars i

/-- One generated campaign name: chosen adjective, chosen noun, and the
zero-padded positional index, space separated. -/
def mkCampaignName (a n i : Nat) : String :=
  ⟨(choiceFrom adjectives a).data ++ ' ' :: (choiceFrom nouns n).data ++ ' ' :: pad3 i⟩

/-- `DataSimulator.generate_campaign_names` (data_handling.py lines 69-82):
one name per index `1 .. num_campaigns`, with per-index random choices
supplied by the oracles. -/
def generate_campaign_names (adjPick nounPick : Nat → Nat) (num_campaigns : Nat) : List String :=
  (List.range' 1 num_campaigns).map fun i => mkCampaignName (adjPick i) (nounPick i) i

/-- The two fixed platforms of `DataSimulator.generate_simulated_data`. -/
def platforms : List String := ["Facebook", "Instagram"]

/-- The random draws consumed by `DataSimulator.generate_simulated_data`,
supplied as oracles: the name-pool choices per campaign index, and the five
numeric draws per `(campaign, platform, day)` iteration. -/
structure RandSupply where
  adjPick : Nat → Nat
  nounPick : Nat → Nat
  engDraw : String → String → Nat → Rat
  impDraw : String → String → Nat → Int
  clkDraw : String → String → Nat → Int
  cnvDraw : String → String → Nat → Int
  revDraw : String → String → Nat → Rat

/-- A record as appended by `generate_simulated_data`; `dayOffset` stands for
`datetime(2024, 1, 1) + timedelta(days=day)`. -/
structure SimRecord where
  dayOffset : Nat
  campaign : String
  platform : String
  engagement_rate : Rat
  impressions : Int
  clicks : Int
  conversions : Int
  revenue : Rat

/-- `DataSimulator.generate_simulated_data` (data_handling.py lines 84-116):
one record per campaign name, per platform, per day. -/
def generate_simulated_data (rs : RandSupply) (num_campaigns num_days : Nat) : List SimRecord :=
  (generate_campaign_names rs.adjPick rs.nounPick num_campaigns).flatMap fun c =>
    platforms.flatMap fun p =>
      (List.range num_days).map fun day =>
        { dayOffset := day,
          campaign := c,
          platform := p,
          engagement_rate := rs.engDraw c p day,
          impressions := rs.impDraw c p day,
          clicks := rs.clkDraw c p day,
          conversions := rs.cnvDraw c p day,
          revenue := rs.revDraw c p day }

/-- Modelled from the spec: the rejected alternative computation named by the
spec's ratio-of-sums property, namely CTR as the arithmetic mean of the
per-row `Clicks/Impressions` ratios of a campaign's group. -/
def spec_mean_of_row_ratios (rows : List Record) (c : String) : Rat :=
  meanRat (campaignGroup rows c) fun r => (r.clicks : Rat) / (r.impressions : Rat)

/-- True exactly on results that are not a raised exception. -/
def okResult {ε α : Type} : Except ε α → Bool
  | .ok _ => true
  | .error _ => false

/-- The eight columns of the CSV files the pipeline reads and writes
(spec section 6; `DataSimulator.generate_simulated_data` field order). -/
def csvColumns : List String :=
  ["Date", "Campaign", "Platform", "Impressions", "Clicks", "Conversions", "Revenue", "Engagement_Rate"]

/-- C2 counterexample input: a frame carrying exactly the seven columns that
`analyze_campaign_performance` checks, hence no `Date` column. -/
def dfNoDate : DF := { cols := required_columns, rows := [] }

/-- The two-campaign scenario frame: campaigns `A`, `B`, five rows each,
revenue alternating 100/200 (the frame of `tests/test_all.py`). -/
def abDF : DF :=
  { cols := csvColumns,
    rows :=
      [⟨"2023-01-01", "A", "Facebook", 1000, 50, 5, 100, 1/20⟩,
       ⟨"2023-01-02", "B", "Instagram", 2000, 100, 10, 200, 1/10⟩,
       ⟨"2023-01-03", "A", "Facebook", 1000, 50, 5, 100, 1/20⟩,
       ⟨"2023-01-04", "B", "Instagram", 2000, 100, 10, 200, 1/10⟩,
       ⟨"2023-01-05", "A", "Facebook", 1000, 50, 5, 100, 1/20⟩,
       ⟨"2023-01-06", "B", "Instagram", 2000, 100, 10, 200, 1/10⟩,
       ⟨"2023-01-07", "A", "Facebook", 1000, 50, 5, 100, 1/20⟩,
       ⟨"2023-01-08", "B", "Instagram", 2000, 100, 10, 200, 1/10⟩,
       ⟨"2023-01-09", "A", "Facebook", 1000, 50, 5, 100, 1/20⟩,
       ⟨"2023-01-10", "B", "Instagram", 2000, 100, 10, 200, 1/10⟩] }

/-- C1 auxiliary frame: one campaign whose two rows have different per-row
ratios, so ratio-of-sums and mean-of-ratios disagree on it. -/
def rdf : DF :=
  { cols := csvColumns,
    rows :=
      [⟨"2024-01-01", "A", "Facebook", 100, 10, 1, 1, 1/20⟩,
       ⟨"2024-01-02", "A", "Facebook", 300, 90, 9, 1, 1/20⟩] }

/-- The campaign aggregation of `rdf`, spelled out. -/
def rperf : CampaignPerf :=
  { revenue := [("A", 2)],
    ctr := [("A", .num (1/4))],
    conversion_rate := [("A", .num (1/10))],
    engagement_by_platform := [("Facebook", 1/20)],
    impressions_by_platform := [("Facebook", 400)] }

/-- C4 witness frame: one campaign with zero impressions and zero clicks. -/
def zdf : DF :=
  { cols := csvColumns,
    rows := [⟨"2024-01-01", "Z", "Facebook", 0, 0, 0, 0, 0⟩] }

/-- The campaign aggregation of `zdf`, spelled out: both ratios are `nan`. -/
def zperf : CampaignPerf :=
  { revenue := [("Z", 0)],
    ctr := [("Z", .nan)],
    conversion_rate := [("Z", .nan)],
    engagement_by_platform := [("Facebook", 0)],
    impressions_by_platform := [("Facebook", 0)] }

/-- C8 counterexample row: a daily-metrics row whose `Date` is a raw string,
as produced by aggregation over CSV-loaded data. -/
def dailyStrRow : DailyRow :=
  { date := .str "2024-01-01", platform := "Facebook", engagement_rate := 0,
    impressions := 1, clicks := 1, conversions := 1, ctr := .num 1, conversion_rate := .num 1 }

/-- One step of reading a decimal number: shift and add the digit value of a
character. -/
def digitStep (a : Nat) (c : Char) : Nat := 10 * a + (c.toNat - 48)

/-- The number denoted by a big-endian list of decimal digit characters. -/
def digitVal (l : List Char) : Nat := l.foldl digitStep 0

/-- The number carried by the final space-separated token of a string. -/
def trailingIndex (s : String) : Nat :=
  digitVal ((s.data.reverse.takeWhile fun c => decide (c ≠ ' ')).reverse)

/-- A subset hypothesis on the columns discharges the Bool validation check. -/
theorem all_mem_of_subset {l cols : List String} (h : l ⊆ cols) :
    (l.all fun c => decide (c ∈ cols)) = true :=
  List.all_eq_true.mpr fun _ hc => decide_eq_true (h hc)

/-- Membership is preserved by `insertionSort`. -/
theorem mem_insertionSort {α : Type} {r : α → α → Prop} [DecidableRel r] {a : α} {l : List α} :
    a ∈ List.insertionSort r l ↔ a ∈ l :=
  (List.perm_insertionSort r l).mem_iff

/-- A successful campaign aggregation determines the three campaign-keyed
Series: each is the sorted list of per-campaign grouped sums (with the two
rates dividing grouped sums). -/
theorem analyze_campaign_ok {df : DF} {perf : CampaignPerf}
    (h : analyze_campaign_performance df = .ok perf) :
    perf.revenue = List.insertionSort descRat
      ((campaignKeys df.rows).map fun c =>
        (c, sumRat (campaignGroup df.rows c) fun r => r.revenue)) ∧
    perf.ctr = List.insertionSort descPd
      ((campaignKeys df.rows).map fun c =>
        (c, pdDiv ((sumInt (campaignGroup df.rows c) fun r => r.clicks : Int) : Rat)
            ((sumInt (campaignGroup df.rows c) fun r => r.impressions : Int) : Rat))) ∧
    perf.conversion_rate = List.insertionSort descPd
      ((campaignKeys df.rows).map fun c =>
        (c, pdDiv ((sumInt (campaignGroup df.rows c) fun r => r.conversions : Int) : Rat)
            ((sumInt (campaignGroup df.rows c) fun r => r.clicks : Int) : Rat))) := by
  unfold analyze_campaign_performance at h
  split at h
  · injection h with h
    subst h
    exact ⟨rfl, rfl, rfl⟩
  · simp at h

/-- A successful daily aggregation determines the resulting frame: one row per
distinct `(Date, Platform)` key, holding that group's aggregates. -/
theorem analyze_platform_ok {df : DF} {daily : List DailyRow}
    (h : analyze_platform_performance df = .ok daily) :
    daily = (dailyKeys df.rows).map fun k =>
      { date := .str k.1,
        platform := k.2,
        engagement_rate := meanRat (dailyGroup df.rows k) fun r => r.engagement_rate,
        impressions := sumInt (dailyGroup df.rows k) fun r => r.impressions,
        clicks := sumInt (dailyGroup df.rows k) fun r => r.clicks,
        conversions := sumInt (dailyGroup df.rows k) fun r => r.conversions,
        ctr := pdDiv ((sumInt (dailyGroup df.rows k) fun r => r.clicks : Int) : Rat)
          ((sumInt (dailyGroup df.rows k) fun r => r.impressions : Int) : Rat),
        conversion_rate := pdDiv ((sumInt (dailyGroup df.rows k) fun r => r.conversions : Int) : Rat)
          ((sumInt (dailyGroup df.rows k) fun r => r.clicks : Int) : Rat) } := by
  unfold analyze_platform_performance at h
  split at h
  · injection h with h
    exact h.symm
  · simp at h

/-- C2 counterexample: the claim's required-field set includes `Date`, so a
collection whose only missing required field is `Date` would have to raise;
but the code's check (analysis.py line 38) does not contain `Date`, and
aggregation on such a frame succeeds without raising. -/
theorem claim_C2_cex :
    "Date" ∉ dfNoDate.cols ∧ okResult (analyze_campaign_performance dfNoDate) = true := by
  constructor
  · decide
  · decide

/-- C2 (amended): campaign aggregation raises a `ValueError` naming exactly
the missing fields from the checked set `Campaign, Revenue, Platform,
Impressions, Clicks, Conversions, Engagement_Rate` (which does not include
`Date`), and does not raise when all checked fields are present, extra
unknown fields allowed. -/
theorem claim_C2_amended (df : DF) :
    (¬ required_columns ⊆ df.cols →
      analyze_campaign_performance df = .error (.valueError (schemaErrMsg (missingColumns df))) ∧
      missingColumns df ≠ [] ∧
      ∀ c, c ∈ missingColumns df ↔ (c ∈ required_columns ∧ c ∉ df.cols)) ∧
    (required_columns ⊆ df.cols → okResult (analyze_campaign_performance df) = true) := by
  constructor
  · intro hns
    have hb : (required_columns.all fun c => decide (c ∈ df.cols)) = false := by
      cases hb : required_columns.all fun c => decide (c ∈ df.cols)
      · rfl
      · exact absurd (fun c hc => of_decide_eq_true (List.all_eq_true.mp hb c hc)) hns
    refine ⟨?_, ?_, ?_⟩
    · unfold analyze_campaign_performance
      rw [hb]
      simp
    · rw [List.subset_def] at hns
      push_neg at hns
      obtain ⟨c, hc, hnc⟩ := hns
      exact List.ne_nil_of_mem (List.mem_filter.mpr ⟨hc, decide_eq_true hnc⟩)
    · intro _c
      simp [missingColumns, List.mem_filter]
  · intro hs
    unfold analyze_campaign_performance
    rw [all_mem_of_subset hs]
    simp [okResult]

set_option maxHeartbeats 1000000 in
/-- C3: for a successful campaign aggregation, every revenue entry is the
exact grouped sum of `Revenue` for its campaign, the entries cover exactly
the campaigns of the input, the values are sorted non-increasing, and on the
two-campaign scenario the result maps `A` to 500 and `B` to 1000 with `B`
ranked first. -/
theorem claim_C3 (df : DF) (perf : CampaignPerf) (_hrows : df.rows ≠ [])
    (h : analyze_campaign_performance df = .ok perf) :
    (∀ p ∈ perf.revenue, p.2 = sumRat (campaignGroup df.rows p.1) fun r => r.revenue) ∧
    (∀ c : String, c ∈ perf.revenue.map Prod.fst ↔ c ∈ df.rows.map fun r => r.campaign) ∧
    List.Sorted (· ≥ ·) (perf.revenue.map Prod.snd) ∧
    (analyze_campaign_performance abDF).map (fun q => q.revenue) = .ok [("B", 1000), ("A", 500)] := by
  obtain ⟨hrev, -, -⟩ := analyze_campaign_ok h
  refine ⟨?_, ?_, ?_, ?_⟩
  · intro p hp
    rw [hrev] at hp
    obtain ⟨c, hc, hcp⟩ := List.mem_map.mp (mem_insertionSort.mp hp)
    rw [← hcp]
  · intro c
    have hperm : List.Perm (perf.revenue.map Prod.fst) (campaignKeys df.rows) := by
      rw [hrev]
      refine ((List.perm_insertionSort _ _).map _).trans ?_
      rw [List.map_map]
      rw [show (Prod.fst ∘ fun c =>
        (c, sumRat (campaignGroup df.rows c) fun r => r.revenue)) = id from rfl]
      rw [List.map_id]
    rw [hperm.mem_iff]
    exact List.mem_dedup
  · rw [hrev]
    have hs := List.sorted_insertionSort descRat
      ((campaignKeys df.rows).map fun c =>
        (c, sumRat (campaignGroup df.rows c) fun r => r.revenue))
    exact List.pairwise_map.mpr hs
  · simp [analyze_campaign_performance, abDF, csvColumns, required_columns, campaignKeys,
      campaignGroup, sumRat, List.insertionSort, List.orderedInsert, descRat,
      List.dedup, List.pwFilter, Except.map]
    norm_num

/-- C9: `CSVDataLoader.load_data` never propagates the read outcome's
exception: a failed read yields the empty frame, a successful read yields
its frame, so a failed read is indistinguishable from reading an empty
frame. -/
theorem claim_C9 (msg : String) (df : DF) :
    load_data (.error msg) = DF.emptyFrame ∧
    load_data (.ok df) = df ∧
    load_data (.error msg) = load_data (.ok DF.emptyFrame) :=
  ⟨rfl, rfl, rfl⟩

/-- C1: in a successful aggregation every CTR entry is the grouped sum of
`Clicks` divided by the grouped sum of `Impressions` and every conversion
rate entry is the grouped sum of `Conversions` divided by the grouped sum of
`Clicks`, per campaign and per `(Date, Platform)` group alike; moreover on
`rdf` the computed CTR differs from the spec's rejected mean-of-per-row
ratios, so the code does not compute that mean. -/
theorem claim_C1 (df : DF) (perf : CampaignPerf)
    (h : analyze_campaign_performance df = .ok perf) :
    (∀ p ∈ perf.ctr,
      p.2 = pdDiv ((sumInt (campaignGroup df.rows p.1) fun r => r.clicks : Int) : Rat)
        ((sumInt (campaignGroup df.rows p.1) fun r => r.impressions : Int) : Rat)) ∧
    (∀ p ∈ perf.conversion_rate,
      p.2 = pdDiv ((sumInt (campaignGroup df.rows p.1) fun r => r.conversions : Int) : Rat)
        ((sumInt (campaignGroup df.rows p.1) fun r => r.clicks : Int) : Rat)) ∧
    (∀ daily, analyze_platform_performance df = .ok daily → ∀ row ∈ daily,
      row.ctr = pdDiv
        ((sumInt (dailyGroup df.rows (row.date.asStr, row.platform)) fun r => r.clicks : Int) : Rat)
        ((sumInt (dailyGroup df.rows (row.date.asStr, row.platform)) fun r => r.impressions : Int) : Rat) ∧
      row.conversion_rate = pdDiv
        ((sumInt (dailyGroup df.rows (row.date.asStr, row.platform)) fun r => r.conversions : Int) : Rat)
        ((sumInt (dailyGroup df.rows (row.date.asStr, row.platform)) fun r => r.clicks : Int) : Rat)) ∧
    (analyze_campaign_performance rdf).map (fun q => q.ctr.lookup "A") ≠
      .ok (some (.num (spec_mean_of_row_ratios rdf.rows "A"))) := by
  obtain ⟨-, hctr, hconv⟩ := analyze_campaign_ok h
  refine ⟨?_, ?_, ?_, ?_⟩
  · intro p hp
    rw [hctr] at hp
    obtain ⟨c, hc, hcp⟩ := List.mem_map.mp (mem_insertionSort.mp hp)
    rw [← hcp]
  · intro p hp
    rw [hconv] at hp
    obtain ⟨c, hc, hcp⟩ := List.mem_map.mp (mem_insertionSort.mp hp)
    rw [← hcp]
  · intro daily hd row hrow
    rw [analyze_platform_ok hd] at hrow
    obtain ⟨k, hk, hkr⟩ := List.mem_map.mp hrow
    rw [← hkr]
    constructor <;> simp [DateCell.asStr]
  · simp [analyze_campaign_performance, rdf, spec_mean_of_row_ratios, meanRat, csvColumns,
      required_columns, campaignKeys, campaignGroup, sumInt, pdDiv, List.insertionSort,
      List.orderedInsert, descPd, pdLeDesc, List.dedup, List.pwFilter, Except.map, List.lookup]
    norm_num

/-- C1 witness: the campaign CTR entry of `rdf` is the grouped-sums ratio. -/
theorem claim_C1_witness :
    ("A", PdVal.num (1/4)).2 = pdDiv
      ((sumInt (campaignGroup rdf.rows "A") fun r => r.clicks : Int) : Rat)
      ((sumInt (campaignGroup rdf.rows "A") fun r => r.impressions : Int) : Rat) :=
  (claim_C1 rdf rperf (by
    simp [analyze_campaign_performance, rdf, rperf, csvColumns, required_columns, campaignKeys,
      campaignGroup, platformKeys, platformGroup, sumInt, sumRat, meanRat, pdDiv,
      List.insertionSort, List.orderedInsert, descPd, descRat, pdLeDesc,
      List.dedup, List.pwFilter]
    norm_num)).1 ("A", PdVal.num (1/4)) (by simp [rperf])

/-- C3 witness: the revenue entry of `rdf` is the exact grouped sum. -/
theorem claim_C3_witness :
    ("A", (2 : Rat)).2 = sumRat (campaignGroup rdf.rows "A") fun r => r.revenue :=
  (claim_C3 rdf rperf (by simp [rdf]) (by
    simp [analyze_campaign_performance, rdf, rperf, csvColumns, required_columns, campaignKeys,
      campaignGroup, platformKeys, platformGroup, sumInt, sumRat, meanRat, pdDiv,
      List.insertionSort, List.orderedInsert, descPd, descRat, pdLeDesc,
      List.dedup, List.pwFilter]
    norm_num)).1 ("A", (2 : Rat)) (by simp [rperf])

/-- Division by a zero denominator yields a non-finite marker and never the
finite value zero. -/
theorem pdDiv_zero_den (a : Rat) :
    (pdDiv a 0).isUndefinedMarker = true ∧ pdDiv a 0 ≠ .num 0 := by
  unfold pdDiv
  rw [if_pos rfl]
  by_cases h : a = 0
  · simp [h, PdVal.isUndefinedMarker]
  · rw [if_neg h]
    by_cases h2 : 0 < a
    · simp [h2, PdVal.isUndefinedMarker]
    · simp [h2, PdVal.isUndefinedMarker]

/-- C4: on a frame with all touched columns present, both aggregations
return without raising, and any group whose ratio denominator sums to zero
gets a non-finite marker, never a raised error and never the value zero. -/
theorem claim_C4 (df : DF) (hv : required_columns ⊆ df.cols) (hp : platformColumns ⊆ df.cols) :
    okResult (analyze_campaign_performance df) = true ∧
    okResult (analyze_platform_performance df) = true ∧
    (∀ perf, analyze_campaign_performance df = .ok perf →
      (∀ p ∈ perf.ctr, sumInt (campaignGroup df.rows p.1) (fun r => r.impressions) = 0 →
        p.2.isUndefinedMarker = true ∧ p.2 ≠ .num 0) ∧
      (∀ p ∈ perf.conversion_rate, sumInt (campaignGroup df.rows p.1) (fun r => r.clicks) = 0 →
        p.2.isUndefinedMarker = true ∧ p.2 ≠ .num 0)) ∧
    (∀ daily, analyze_platform_performance df = .ok daily → ∀ row ∈ daily,
      (row.impressions = 0 → row.ctr.isUndefinedMarker = true ∧ row.ctr ≠ .num 0) ∧
      (row.clicks = 0 →
        row.conversion_rate.isUndefinedMarker = true ∧ row.conversion_rate ≠ .num 0)) := by
  refine ⟨?_, ?_, ?_, ?_⟩
  · unfold analyze_campaign_performance
    rw [all_mem_of_subset hv]
    simp [okResult]
  · unfold analyze_platform_performance
    rw [all_mem_of_subset hp]
    simp [okResult]
  · intro perf h
    obtain ⟨-, hctr, hconv⟩ := analyze_campaign_ok h
    constructor
    · intro p hpm hz
      rw [hctr] at hpm
      obtain ⟨c, hc, hcp⟩ := List.mem_map.mp (mem_insertionSort.mp hpm)
      rw [← hcp]
      rw [← hcp] at hz
      have hz2 : ((sumInt (campaignGroup df.rows c) fun r => r.impressions : Int) : Rat) = 0 := by
        rw [show sumInt (campaignGroup df.rows c) (fun r => r.impressions) = 0 from hz]
        norm_num
      rw [hz2]
      exact pdDiv_zero_den _
    · intro p hpm hz
      rw [hconv] at hpm
      obtain ⟨c, hc, hcp⟩ := List.mem_map.mp (mem_insertionSort.mp hpm)
      rw [← hcp]
      rw [← hcp] at hz
      have hz2 : ((sumInt (campaignGroup df.rows c) fun r => r.clicks : Int) : Rat) = 0 := by
        rw [show sumInt (campaignGroup df.rows c) (fun r => r.clicks) = 0 from hz]
        norm_num
      rw [hz2]
      exact pdDiv_zero_den _
  · intro daily hd row hrow
    rw [analyze_platform_ok hd] at hrow
    obtain ⟨k, hk, hkr⟩ := List.mem_map.mp hrow
    rw [← hkr]
    constructor
    · intro hz
      simp only at hz
      have hz2 : ((sumInt (dailyGroup df.rows k) fun r => r.impressions : Int) : Rat) = 0 := by
        rw [hz]
        norm_num
      simp only [hz2]
      exact pdDiv_zero_den _
    · intro hz
      simp only at hz
      have hz2 : ((sumInt (dailyGroup df.rows k) fun r => r.clicks : Int) : Rat) = 0 := by
        rw [hz]
        norm_num
      simp only [hz2]
      exact pdDiv_zero_den _

/-- C4 witness: the zero-impressions campaign of `zdf` gets the `nan` marker
and not zero. -/
theorem claim_C4_witness :
    PdVal.isUndefinedMarker ("Z", PdVal.nan).2 = true ∧ ("Z", PdVal.nan).2 ≠ PdVal.num 0 :=
  ((claim_C4 zdf (by decide) (by decide)).2.2.1 zperf (by
    norm_num [analyze_campaign_performance, zdf, zperf, csvColumns, required_columns,
      campaignKeys, campaignGroup, platformKeys, platformGroup, sumInt, sumRat, meanRat,
      pdDiv, List.insertionSort, List.orderedInsert, descPd, descRat, pdLeDesc,
      List.dedup, List.pwFilter])).1 ("Z", PdVal.nan) (by simp [zperf]) (by decide)

/-- C5: an empty record collection carrying the full CSV schema makes both
aggregation operations succeed with empty outputs. -/
theorem claim_C5 (cols : List String) (hv : required_columns ⊆ cols) (hp : platformColumns ⊆ cols) :
    analyze_campaign_performance { cols := cols, rows := [] } =
      .ok { revenue := [], ctr := [], conversion_rate := [],
            engagement_by_platform := [], impressions_by_platform := [] } ∧
    analyze_platform_performance { cols := cols, rows := [] } = .ok [] := by
  constructor
  · unfold analyze_campaign_performance
    rw [all_mem_of_subset hv]
    simp [campaignKeys, platformKeys, List.dedup, List.insertionSort]
  · unfold analyze_platform_performance
    rw [all_mem_of_subset hp]
    simp [dailyKeys, List.dedup]

/-- C5 witness: the concrete CSV schema with zero rows. -/
theorem claim_C5_witness :
    analyze_campaign_performance { cols := csvColumns, rows := [] } =
      .ok { revenue := [], ctr := [], conversion_rate := [],
            engagement_by_platform := [], impressions_by_platform := [] } ∧
    analyze_platform_performance { cols := csvColumns, rows := [] } = .ok [] :=
  claim_C5 csvColumns (by decide) (by decide)

/-- The length of a `flatMap` whose pieces all have the same length. -/
theorem length_flatMap_const {α β : Type} (l : List α) (f : α → List β) (c : Nat)
    (h : ∀ a ∈ l, (f a).length = c) : (l.flatMap f).length = l.length * c := by
  induction l with
  | nil => simp
  | cons a as ih =>
    rw [List.flatMap_cons, List.length_append, h a (by simp),
      ih fun x hx => h x (by simp [hx]), List.length_cons]
    ring

/-- C6: the generator emits exactly `num_campaigns * 2 * num_days` records,
whatever the random draws; in particular two campaigns over three days give
twelve records. -/
theorem claim_C6 (rs : RandSupply) (num_campaigns num_days : Nat) :
    (generate_simulated_data rs num_campaigns num_days).length = num_campaigns * 2 * num_days ∧
    (generate_simulated_data rs 2 3).length = 12 := by
  have key : ∀ n d : Nat, (generate_simulated_data rs n d).length = n * 2 * d := by
    intro n d
    have h2 : ∀ c ∈ generate_campaign_names rs.adjPick rs.nounPick n,
        ((platforms.flatMap fun p => (List.range d).map fun day =>
          ({ dayOffset := day, campaign := c, platform := p,
             engagement_rate := rs.engDraw c p day, impressions := rs.impDraw c p day,
             clicks := rs.clkDraw c p day, conversions := rs.cnvDraw c p day,
             revenue := rs.revDraw c p day } : SimRecord))).length = 2 * d := by
      intro c hc
      have h3 : ∀ p ∈ platforms, ((List.range d).map fun day =>
          ({ dayOffset := day, campaign := c, platform := p,
             engagement_rate := rs.engDraw c p day, impressions := rs.impDraw c p day,
             clicks := rs.clkDraw c p day, conversions := rs.cnvDraw c p day,
             revenue := rs.revDraw c p day } : SimRecord)).length = d := by
        intro p hp
        rw [List.length_map, List.length_range]
      rw [length_flatMap_const _ _ d h3]
      norm_num [platforms]
    unfold generate_simulated_data
    rw [length_flatMap_const _ _ (2 * d) h2, generate_campaign_names, List.length_map,
      List.length_range']
    ring
  exact ⟨key num_campaigns num_days, by rw [key 2 3]⟩

/-- The first character of every schema error message. -/
theorem schemaErrMsg_head (m : List String) : (schemaErrMsg m).data.head? = some '🚫' := by
  rw [schemaErrMsg, String.data_append, List.head?_append]
  have h : "🚫 Missing required columns: ".data.head? = some '🚫' := by decide
  rw [h]
  rfl

/-- The no-data message is distinct from every schema error message. -/
theorem noDataMsg_ne_schemaErrMsg (m : List String) : noDataMsg ≠ schemaErrMsg m := by
  intro hEq
  have h2 := schemaErrMsg_head m
  rw [← hEq] at h2
  exact absurd h2 (by decide)

/-- C7: when the source yields no files, or files with no records at all, the
controller stops with the no-files or no-data error — whatever the two
aggregation operations would do — and that error is never a schema-mismatch
error. -/
theorem claim_C7 (cf : DF → Except PyErr CampaignPerf) (pf : DF → Except PyErr (List DailyRow))
    (parse : String → Nat) (files : List (Except String DF))
    (hnd : files = [] ∨ (concatDF (files.map load_data)).rows = []) :
    (run_analysis_with cf pf parse files = .error (.fileNotFoundError noFilesMsg) ∨
     run_analysis_with cf pf parse files = .error (.valueError noDataMsg)) ∧
    ∀ m : List String,
      run_analysis_with cf pf parse files ≠ .error (.valueError (schemaErrMsg m)) := by
  by_cases hf : files.isEmpty = true
  · have hrun : run_analysis_with cf pf parse files = .error (.fileNotFoundError noFilesMsg) := by
      unfold run_analysis_with load_all_data
      rw [if_pos hf]
    refine ⟨Or.inl hrun, ?_⟩
    intro m
    rw [hrun]
    simp
  · have hrows : (concatDF (files.map load_data)).rows = [] := by
      rcases hnd with h1 | h2
      · rw [h1] at hf
        simp at hf
      · exact h2
    have hemp : (concatDF (files.map load_data)).isEmptyDF = true := by
      unfold DF.isEmptyDF
      rw [hrows]
      simp
    have hrun : run_analysis_with cf pf parse files = .error (.valueError noDataMsg) := by
      unfold run_analysis_with load_all_data
      rw [if_neg hf]
      simp only []
      rw [if_pos hemp]
    refine ⟨Or.inr hrun, ?_⟩
    intro m
    rw [hrun]
    intro hc
    injection hc with hc
    injection hc with hc
    exact noDataMsg_ne_schemaErrMsg m hc

/-- C7 witness: one successfully read but completely empty frame. -/
theorem claim_C7_witness :
    (run_analysis_with analyze_campaign_performance analyze_platform_performance (fun _ => 0)
        [.ok DF.emptyFrame] = .error (.fileNotFoundError noFilesMsg) ∨
     run_analysis_with analyze_campaign_performance analyze_platform_performance (fun _ => 0)
        [.ok DF.emptyFrame] = .error (.valueError noDataMsg)) ∧
    run_analysis_with analyze_campaign_performance analyze_platform_performance (fun _ => 0)
        [.ok DF.emptyFrame] ≠ .error (.valueError (schemaErrMsg [])) := by
  have h := claim_C7 analyze_campaign_performance analyze_platform_performance (fun _ => 0)
    [.ok DF.emptyFrame] (Or.inr rfl)
  exact ⟨h.1, h.2 []⟩

/-- C8 counterexample: rendering the platform comparison rewrites the `Date`
column of the caller's daily-metrics frame in place, so the already-computed
frame is not left unchanged. -/
theorem claim_C8_cex :
    (create_platform_comparison (fun _ => 0) [dailyStrRow]).1 ≠ [dailyStrRow] := by
  simp [create_platform_comparison, to_datetime, dailyStrRow]

/-- C8 (amended): performance-chart rendering leaves its input unchanged, and
platform-comparison rendering changes exactly the `Date` column of the
daily-metrics frame — each cell replaced by its `to_datetime` conversion —
leaving every other column and the row count intact. -/
theorem claim_C8_amended (parse : String → Nat) (perf : CampaignPerf) (daily : List DailyRow) :
    (create_performance_charts perf).1 = perf ∧
    List.Forall₂ (fun r2 r =>
      r2.date = to_datetime parse r.date ∧ r2.platform = r.platform ∧
      r2.engagement_rate = r.engagement_rate ∧ r2.impressions = r.impressions ∧
      r2.clicks = r.clicks ∧ r2.conversions = r.conversions ∧ r2.ctr = r.ctr ∧
      r2.conversion_rate = r.conversion_rate)
      (create_platform_comparison parse daily).1 daily := by
  refine ⟨rfl, ?_⟩
  induction daily with
  | nil => exact List.Forall₂.nil
  | cons r rs ih =>
    simp only [create_platform_comparison, List.map_cons] at ih ⊢
    exact List.Forall₂.cons ⟨rfl, rfl, rfl, rfl, rfl, rfl, rfl, rfl⟩ ih

/-- `takeWhile` over an append stops exactly at the first failing element. -/
theorem takeWhile_all_append {p : Char → Bool} (xs : List Char) (y : Char) (ys : List Char)
    (hxs : ∀ x ∈ xs, p x = true) (hy : p y = false) :
    (xs ++ y :: ys).takeWhile p = xs := by
  induction xs with
  | nil => simp [List.takeWhile_cons, hy]
  | cons a as ih =>
    rw [List.cons_append, List.takeWhile_cons, if_pos (hxs a (by simp)),
      ih fun x hx => hxs x (by simp [hx])]

/-- The code point of a decimal digit character. -/
theorem digitChar_toNat {d : Nat} (hd : d < 10) : (Char.ofNat (48 + d)).toNat = 48 + d := by
  interval_cases d <;> decide

/-- Decimal digit characters are not the space character. -/
theorem digitChar_ne_space {d : Nat} (hd : d < 10) : Char.ofNat (48 + d) ≠ ' ' := by
  interval_cases d <;> decide

/-- No character of a zero-padded index is a space. -/
theorem pad3_no_space (i : Nat) : ∀ c ∈ pad3 i, c ≠ ' ' := by
  intro c hc
  rw [pad3] at hc
  rcases List.mem_append.mp hc with h | h
  · rw [List.eq_of_mem_replicate h]
    decide
  · rw [decimalChars] at h
    rcases List.mem_map.mp (List.mem_reverse.mp h) with ⟨d, hd, rfl⟩
    exact digitChar_ne_space (Nat.digits_lt_base (by norm_num) hd)

/-- Leading zero characters do not change the value read. -/
theorem digitVal_replicate (k : Nat) (l : List Char) :
    digitVal (List.replicate k '0' ++ l) = digitVal l := by
  induction k with
  | zero => rw [List.replicate_zero, List.nil_append]
  | succ k ih =>
    rw [List.replicate_succ, List.cons_append]
    unfold digitVal
    rw [List.foldl_cons]
    have h0 : digitStep 0 '0' = 0 := by decide
    rw [h0]
    exact ih

/-- Reading the reversed digit expansion of a number recovers the number. -/
theorem digitVal_digits_aux :
    ∀ L : List Nat, (∀ d ∈ L, d < 10) → ∀ acc : Nat,
      List.foldl digitStep acc ((L.map fun d => Char.ofNat (48 + d)).reverse) =
        acc * 10 ^ L.length + Nat.ofDigits 10 L := by
  intro L
  induction L with
  | nil =>
    intro h acc
    simp [Nat.ofDigits_nil]
  | cons d L ih =>
    intro h acc
    rw [List.map_cons, List.reverse_cons, List.foldl_append,
      ih (fun x hx => h x (by simp [hx])) acc, List.foldl_cons, List.foldl_nil,
      Nat.ofDigits_cons]
    unfold digitStep
    rw [digitChar_toNat (h d (by simp)), Nat.add_sub_cancel_left, List.length_cons, pow_succ]
    ring

/-- Reading back a zero-padded index recovers the index. -/
theorem digitVal_pad3 (i : Nat) : digitVal (pad3 i) = i := by
  rw [pad3, digitVal_replicate, decimalChars]
  have h := digitVal_digits_aux (Nat.digits 10 i)
    (fun d hd => Nat.digits_lt_base (by norm_num) hd) 0
  exact h.trans (by rw [Nat.ofDigits_digits]; ring)

/-- Reversing a list around a distinguished space. -/
theorem reverse_name_split (v u : List Char) :
    (v ++ ' ' :: u).reverse = u.reverse ++ ' ' :: v.reverse := by
  simp

/-- The positional index is recoverable from a generated campaign name,
whatever adjective and noun were drawn. -/
theorem trailingIndex_mkCampaignName (a n i : Nat) :
    trailingIndex (mkCampaignName a n i) = i := by
  have hsplit : (mkCampaignName a n i).data =
      ((choiceFrom adjectives a).data ++ ' ' :: (choiceFrom nouns n).data) ++ ' ' :: pad3 i := by
    unfold mkCampaignName
    simp [List.append_assoc]
  have ht := takeWhile_all_append (p := fun c => decide (c ≠ ' ')) ((pad3 i).reverse) ' '
    ((choiceFrom adjectives a).data ++ ' ' :: (choiceFrom nouns n).data).reverse
    (fun x hx => decide_eq_true (pad3_no_space i x (List.mem_reverse.mp hx))) (by decide)
  unfold trailingIndex
  rw [hsplit, reverse_name_split, ht, List.reverse_reverse]
  exact digitVal_pad3 i

/-- C10: the generator returns exactly `num_campaigns` names and they are
pairwise distinct, because each carries its own zero-padded positional
index. -/
theorem claim_C10 (adjPick nounPick : Nat → Nat) (num_campaigns : Nat) :
    (generate_campaign_names adjPick nounPick num_campaigns).length = num_campaigns ∧
    (generate_campaign_names adjPick nounPick num_campaigns).Nodup := by
  constructor
  · rw [generate_campaign_names, List.length_map, List.length_range']
  · rw [generate_campaign_names]
    refine List.Nodup.map_on ?_ (List.nodup_range' _ _)
    intro i hi j hj heq
    have h2 := congrArg trailingIndex heq
    rwa [trailingIndex_mkCampaignName, trailingIndex_mkCampaignName] at h2

/-- C2 witness: a frame having only a `Campaign` column raises the schema
error built from the missing-column set, and `Clicks` is reported exactly
when it is checked and absent. -/
theorem claim_C2_witness :
    analyze_campaign_performance { cols := ["Campaign"], rows := [] } =
      .error (.valueError (schemaErrMsg (missingColumns { cols := ["Campaign"], rows := [] }))) ∧
    ("Clicks" ∈ missingColumns { cols := ["Campaign"], rows := [] } ↔
      ("Clicks" ∈ required_columns ∧ "Clicks" ∉ DF.cols { cols := ["Campaign"], rows := [] })) := by
  have h := (claim_C2_amended { cols := ["Campaign"], rows := [] }).1 (by decide)
  exact ⟨h.1, h.2.2 "Clicks"⟩
